import Mathlib

/-!
Shallow embedding of the findit Django application (GDGBabcockUniversity
hacktoberfest-findit): the item-report validation layer of findit/forms.py,
the persisted data model of findit/models.py and the claim/notification flow
of findit/views.py, together with theorems settling the specification claims.

Conventions:
* Python strings are Lean Strings; str.strip / str.lower / str.replace are
  embedded below on the character list.
* Django's per-field cleaning order is preserved: Field.to_python (CharField
  strips), the required check, the field validators (max_length, the phone
  RegexValidator, the email syntax check), and only then the form's
  clean_<field> hook.
* Fallible steps return Except; a Django exception that is not a
  ValidationError (and hence is not caught by form validation) is modelled
  as FormCrash.
-/

/-- The whitespace characters removed by Python str.strip (no argument). -/
def isPyWhitespace (c : Char) : Bool :=
  c == ' ' || c == '\t' || c == '\n' || c == '\r' || c == '\x0b' || c == '\x0c'

/-- Python str.strip on a character list: drop whitespace from both ends. -/
def pyStripList (l : List Char) : List Char :=
  ((l.dropWhile isPyWhitespace).reverse.dropWhile isPyWhitespace).reverse

/-- Python str.strip. -/
def pyStrip (s : String) : String := ⟨pyStripList s.data⟩

/-- Python str.lower (ASCII case folding, as used on the email field). -/
def lowerStr (s : String) : String := ⟨s.data.map Char.toLower⟩

/-- Python phone.replace(' ', '').replace('-', '') from
BaseItemForm.clean_contact_phone: remove every space and dash. -/
def removeSpacesDashes (s : String) : String :=
  ⟨s.data.filter (fun c => !(c == ' ') && !(c == '-'))⟩

/-- Nine to fifteen digit characters: the \d{9,15} tail of BaseItemForm.phone_regex. -/
def phoneDigits (cs : List Char) : Bool :=
  cs.all Char.isDigit && decide (9 ≤ cs.length) && decide (cs.length ≤ 15)

/-- After the optional leading plus sign: an optional literal one followed by
9 to 15 digits (the 1?\d{9,15} part of the regex, with backtracking on the
optional one). -/
def phoneAfterPlus (cs : List Char) : Bool :=
  phoneDigits cs ||
    (match cs with
     | b :: rest => b == '1' && phoneDigits rest
     | [] => false)

/-- BaseItemForm.phone_regex, the anchored pattern \+?1?\d{9,15}: an optional
leading plus (which, if present, must be consumed since no other token
matches it), then an optional one, then 9 to 15 digits. -/
def matchesPhoneRegex (s : String) : Bool :=
  match s.data with
  | [] => false
  | a :: rest => if a == '+' then phoneAfterPlus rest else phoneAfterPlus (a :: rest)

/-- Python str.split(sep) on a character list, accumulator form. -/
def splitOnCharAux (sep : Char) : List Char → List Char → List (List Char)
  | [], acc => [acc.reverse]
  | c :: rest, acc =>
      if c == sep then acc.reverse :: splitOnCharAux sep rest []
      else splitOnCharAux sep rest (c :: acc)

/-- Python str.split(sep) on a character list. -/
def splitOnChar (sep : Char) (l : List Char) : List (List Char) :=
  splitOnCharAux sep l []

/-- Simplified embedding of Django's EmailValidator (framework code run by
forms.EmailField): the value must contain an at sign (the validator's first
check), contain no whitespace, and split at the at sign into a nonempty local
part and a domain of at least two nonempty dot-separated labels. The claims
do not depend on finer email-syntax edge cases. -/
def isValidEmail (s : String) : Bool :=
  s.data.contains '@' &&
  s.data.all (fun c => !(isPyWhitespace c)) &&
  (match splitOnChar '@' s.data with
   | [loc, dom] =>
       !loc.isEmpty &&
       (let labels := splitOnChar '.' dom
        decide (2 ≤ labels.length) && labels.all (fun lab => !lab.isEmpty))
   | _ => false)

/-- Field-level validation errors raised by findit/forms.py (the constructor
names stand for the ValidationError messages in the source). -/
inductive FieldErr where
  | required
  | maxLength (limit : Nat)
  | invalidChoice
  | invalidEmail
  | phoneFormat
  | itemNameTooShort
  | descTooShort
  | descTooLong
  | locationTooShort
  | imageTooLarge
  | imageBadType
deriving DecidableEq, Repr

/-- An uploaded file as clean_image sees it: a byte size and, when the upload
carries one, a MIME content type (the source guards the type check with
hasattr(image, 'content_type')). The PIL image-decoding step of Django's
ImageField is abstracted away; no claim concerns it. -/
structure ImageFile where
  size : Nat
  content_type : Option String
deriving DecidableEq, Repr

/-- The MIME types accepted by BaseItemForm.clean_image. -/
def validContentTypes : List String :=
  ["image/jpeg", "image/jpg", "image/png", "image/gif"]

/-- The choice keys of BaseItemForm.item_type (the empty sentinel choice is
rejected by the required check). -/
def itemTypeChoices : List String :=
  ["electronics", "clothing", "accessories", "documents", "bags", "jewelry",
   "keys", "wallet", "phone", "laptop", "books", "sports", "pet", "other"]

/-- BaseItemForm.clean_item_name: if truthy, strip and require length at
least 3. -/
def clean_item_name (s : String) : Except FieldErr String :=
  if s == "" then .ok s
  else
    let v := pyStrip s
    if v.length < 3 then .error .itemNameTooShort else .ok v

/-- BaseItemForm.clean_description: if truthy, strip and require length in
[10, 1000]. -/
def clean_description (s : String) : Except FieldErr String :=
  if s == "" then .ok s
  else
    let d := pyStrip s
    if d.length < 10 then .error .descTooShort
    else if 1000 < d.length then .error .descTooLong
    else .ok d

/-- BaseItemForm.clean_contact_email: if truthy, lowercase and strip. -/
def clean_contact_email (s : String) : String :=
  if s == "" then s else pyStrip (lowerStr s)

/-- BaseItemForm.clean_contact_phone: if truthy, remove spaces and dashes. -/
def clean_contact_phone (s : String) : String :=
  if s == "" then s else removeSpacesDashes s

/-- BaseItemForm.clean_location: if truthy, strip and require length at
least 3. -/
def clean_location (s : String) : Except FieldErr String :=
  if s == "" then .ok s
  else
    let v := pyStrip s
    if v.length < 3 then .error .locationTooShort else .ok v

/-- BaseItemForm.clean_image: a missing image is fine; otherwise reject a
size above 5 MB, then reject a content type outside the accepted list (the
type check only runs when the upload has a content_type attribute). -/
def clean_image : Option ImageFile → Except FieldErr (Option ImageFile)
  | none => .ok none
  | some img =>
      if 5 * 1024 * 1024 < img.size then .error .imageTooLarge
      else
        match img.content_type with
        | some t =>
            if validContentTypes.contains t then .ok (some img)
            else .error .imageBadType
        | none => .ok (some img)

/-- Django CharField cleaning (strip=True): to_python strips, then the
required check, then the MaxLengthValidator when the field has max_length.
Validators are skipped on an empty optional value. -/
def charFieldPipeline (required : Bool) (maxLen : Option Nat) (raw : String) :
    Except FieldErr String :=
  let v := pyStrip raw
  if v == "" then
    if required then .error .required else .ok v
  else
    match maxLen with
    | some m => if m < v.length then .error (.maxLength m) else .ok v
    | none => .ok v

/-- Django EmailField cleaning for contact_email: strip, required, then the
EmailValidator. -/
def emailFieldPipeline (raw : String) : Except FieldErr String :=
  let v := pyStrip raw
  if v == "" then .error .required
  else if isValidEmail v then .ok v else .error .invalidEmail

/-- Django CharField cleaning for contact_phone: strip, required, then the
field validators in declaration order: phone_regex, then max_length 15.
The regex runs on the raw (stripped) value, before clean_contact_phone. -/
def phoneFieldPipeline (raw : String) : Except FieldErr String :=
  let v := pyStrip raw
  if v == "" then .error .required
  else if !(matchesPhoneRegex v) then .error .phoneFormat
  else if 15 < v.length then .error (.maxLength 15)
  else .ok v

/-- Django ChoiceField cleaning for item_type: required, then membership in
the declared choices. -/
def choiceFieldPipeline (raw : String) : Except FieldErr String :=
  if raw == "" then .error .required
  else if itemTypeChoices.contains raw then .ok raw
  else .error .invalidChoice

/-- Full cleaning of item_name: field pipeline then the clean_item_name
hook. -/
def cleanItemNameField (raw : String) : Except FieldErr String :=
  (charFieldPipeline true (some 200) raw).bind clean_item_name

/-- Full cleaning of color. -/
def cleanColorField (raw : String) : Except FieldErr String :=
  charFieldPipeline true (some 50) raw

/-- Full cleaning of item_type. -/
def cleanItemTypeField (raw : String) : Except FieldErr String :=
  choiceFieldPipeline raw

/-- Full cleaning of brand (the one optional text field). -/
def cleanBrandField (raw : String) : Except FieldErr String :=
  charFieldPipeline false (some 100) raw

/-- Full cleaning of description: field pipeline (no max_length on the form
field) then the clean_description hook. -/
def cleanDescriptionField (raw : String) : Except FieldErr String :=
  (charFieldPipeline true none raw).bind clean_description

/-- Full cleaning of location: field pipeline then the clean_location hook. -/
def cleanLocationField (raw : String) : Except FieldErr String :=
  (charFieldPipeline true (some 300) raw).bind clean_location

/-- Full cleaning of contact_name. -/
def cleanContactNameField (raw : String) : Except FieldErr String :=
  charFieldPipeline true (some 100) raw

/-- Full cleaning of contact_email: field pipeline then the
clean_contact_email hook. -/
def cleanContactEmailField (raw : String) : Except FieldErr String :=
  (emailFieldPipeline raw).map clean_contact_email

/-- Full cleaning of contact_phone: field pipeline then the
clean_contact_phone hook. -/
def cleanContactPhoneField (raw : String) : Except FieldErr String :=
  (phoneFieldPipeline raw).map clean_contact_phone

/-- Full cleaning of image: the optional ImageField then the clean_image
hook. -/
def cleanImageField (raw : Option ImageFile) : Except FieldErr (Option ImageFile) :=
  clean_image raw

/-- The raw field values of one lost-item or found-item submission, as bound
from the POST data by LostItemForm / FoundItemForm. -/
structure Submission where
  item_name : String
  color : String
  item_type : String
  brand : String
  description : String
  location : String
  contact_name : String
  contact_email : String
  contact_phone : String
  image : Option ImageFile
deriving DecidableEq, Repr

/-- The form's cleaned_data after _clean_fields: a key is present exactly
when its field cleaned without error. For image, some none records a present
key holding no upload. -/
structure Cleaned where
  item_name : Option String
  color : Option String
  item_type : Option String
  brand : Option String
  description : Option String
  location : Option String
  contact_name : Option String
  contact_email : Option String
  contact_phone : Option String
  image : Option (Option ImageFile)
deriving DecidableEq, Repr

/-- Collect a failed field's error under its field name, as form.errors
does. -/
def errOf (name : String) : Except FieldErr α → List (String × FieldErr)
  | .error e => [(name, e)]
  | .ok _ => []

/-- Django BaseForm._clean_fields over the ten fields of BaseItemForm:
produce cleaned_data together with the per-field errors. -/
def cleanFields (d : Submission) : Cleaned × List (String × FieldErr) :=
  let rIN := cleanItemNameField d.item_name
  let rCO := cleanColorField d.color
  let rTY := cleanItemTypeField d.item_type
  let rBR := cleanBrandField d.brand
  let rDE := cleanDescriptionField d.description
  let rLO := cleanLocationField d.location
  let rCN := cleanContactNameField d.contact_name
  let rCE := cleanContactEmailField d.contact_email
  let rCP := cleanContactPhoneField d.contact_phone
  let rIM := cleanImageField d.image
  ({ item_name := rIN.toOption, color := rCO.toOption, item_type := rTY.toOption,
     brand := rBR.toOption, description := rDE.toOption, location := rLO.toOption,
     contact_name := rCN.toOption, contact_email := rCE.toOption,
     contact_phone := rCP.toOption, image := rIM.toOption },
   errOf "item_name" rIN ++ errOf "color" rCO ++ errOf "item_type" rTY ++
   errOf "brand" rBR ++ errOf "description" rDE ++ errOf "location" rLO ++
   errOf "contact_name" rCN ++ errOf "contact_email" rCE ++
   errOf "contact_phone" rCP ++ errOf "image" rIM)

/-- Python truthiness of cleaned_data.get(key) for a string field: falsy when
the key is absent or holds the empty string. -/
def optFalsy : Option String → Bool
  | none => true
  | some s => s == ""

/-- Form-level (non-field) errors raised by the clean methods of
findit/forms.py. -/
inductive NonFieldErr where
  | contactMethodRequired
  | duplicateWarning
deriving DecidableEq, Repr

/-- A Django exception that form validation does not catch, escaping from
is_valid. The clean methods of both item forms query LostItem on columns
(item_name, location, date_reported, status) that findit/models.py does not
define, and the ORM raises FieldError as soon as such a filter is built. -/
inductive FormCrash where
  | fieldError
deriving DecidableEq, Repr

/-- BaseItemForm.clean: raise when both contact methods are absent (a raised
ValidationError is recorded by _clean_form as a non-field error). -/
def baseFormClean (c : Cleaned) : Option NonFieldErr :=
  if optFalsy c.contact_email && optFalsy c.contact_phone then
    some .contactMethodRequired
  else none

/-- LostItemForm.clean: first the base clean (whose ValidationError, when
raised, skips the rest of the method); then, when item_name and location are
both truthy, the recent-duplicate lookup
LostItem.objects.filter(item_name__icontains=..., location__icontains=...,
date_reported__gte=...). The LostItem model of findit/models.py has none of
the columns item_name, location, date_reported, so building that filter
raises FieldError; the add_error('duplicate_warning') line below it is
unreachable. -/
def lostItemFormClean (c : Cleaned) : Except FormCrash (List NonFieldErr) :=
  match baseFormClean c with
  | some e => .ok [e]
  | none =>
      if !(optFalsy c.item_name) && !(optFalsy c.location) then
        .error .fieldError
      else .ok []

/-- FoundItemForm.clean: first the base clean; then, when item_name and color
are both truthy, the potential-match lookup
LostItem.objects.filter(item_name__icontains=..., color__iexact=...,
status='active'). The LostItem model has no item_name or status column, so
building that filter raises FieldError. -/
def foundItemFormClean (c : Cleaned) : Except FormCrash (List NonFieldErr) :=
  match baseFormClean c with
  | some e => .ok [e]
  | none =>
      if !(optFalsy c.item_name) && !(optFalsy c.color) then
        .error .fieldError
      else .ok []

/-- The outcome of a form validation that ran to completion. -/
structure FormResult where
  cleaned : Cleaned
  fieldErrors : List (String × FieldErr)
  nonFieldErrors : List NonFieldErr
deriving DecidableEq, Repr

/-- LostItemForm.full_clean: _clean_fields then LostItemForm.clean; a
FieldError from the clean method escapes is_valid. -/
def lostFormValidate (d : Submission) : Except FormCrash FormResult :=
  let cf := cleanFields d
  match lostItemFormClean cf.1 with
  | .error cr => .error cr
  | .ok nf => .ok ⟨cf.1, cf.2, nf⟩

/-- FoundItemForm.full_clean: _clean_fields then FoundItemForm.clean; a
FieldError from the clean method escapes is_valid. -/
def foundFormValidate (d : Submission) : Except FormCrash FormResult :=
  let cf := cleanFields d
  match foundItemFormClean cf.1 with
  | .error cr => .error cr
  | .ok nf => .ok ⟨cf.1, cf.2, nf⟩

/-- form.is_valid on a completed validation: no field errors and no
non-field errors. -/
def formIsValid (r : FormResult) : Bool :=
  r.fieldErrors.isEmpty && r.nonFieldErrors.isEmpty

/-- The non-field errors of a completed validation (empty on a crash). -/
def nonFieldErrorsOf : Except FormCrash FormResult → List NonFieldErr
  | .ok r => r.nonFieldErrors
  | .error _ => []

/-- The column names of the LostItem table in findit/models.py (with the
implicit primary key). -/
def lostItemModelFields : List String :=
  ["id", "user", "description", "color", "brand", "distinctive_features",
   "time_created", "last_known_location", "image"]

/-- The column names of the FoundItem table in findit/models.py (with the
implicit primary key). -/
def foundItemModelFields : List String :=
  ["id", "user", "description", "color", "brand", "distinctive_features",
   "time_created", "last_known_location", "image"]

/-- A UserProfile row (findit/models.py): the identity fields the claims
need. -/
structure UserRec where
  id : Nat
  username : String
deriving DecidableEq, Repr

/-- A LostItem row (findit/models.py): user is a deletion-protected foreign
key to UserProfile; the auto timestamp and the stored image path are
omitted, no claim concerns them. -/
structure LostItemRec where
  id : Nat
  user : Nat
  description : String
  color : String
  brand : String
  distinctive_features : String
  last_known_location : String
deriving DecidableEq, Repr

/-- A FoundItem row (findit/models.py): same shape as LostItem. -/
structure FoundItemRec where
  id : Nat
  user : Nat
  description : String
  color : String
  brand : String
  distinctive_features : String
  last_known_location : String
deriving DecidableEq, Repr

/-- A Notification row (findit/models.py): deletion-protected foreign keys
to the recipient and the sender, a message, and the unread flag (default
false); the auto timestamp is omitted. -/
structure NotificationRec where
  to_user : Nat
  from_user : Nat
  message : String
  is_read : Bool
deriving DecidableEq, Repr

/-- The relational store: one list per table. -/
structure DBState where
  users : List UserRec
  lostItems : List LostItemRec
  foundItems : List FoundItemRec
  notifications : List NotificationRec
deriving DecidableEq, Repr

/-- Queries in views.claim_item raise LostItem.DoesNotExist when the id does
not resolve; the view does not catch it, so the request aborts with no row
written. -/
inductive ClaimError where
  | doesNotExist
deriving DecidableEq, Repr

/-- The notification message built by views.claim_item, the f-string
" {request.user.username} has claimed the item you found : {item.description}"
(note the leading space and the space before the colon). -/
def claimMessage (u : UserRec) (item : LostItemRec) : String :=
  " " ++ u.username ++ " has claimed the item you found : " ++ item.description

/-- views.claim_item: look the id up with LostItem.objects.get(id=item_id)
(the LostItem table only); on a hit, create one Notification to the item's
user from the requesting user; on a miss, LostItem.DoesNotExist aborts the
request before anything is written. Returns the resulting store and the
error, if any. -/
def claim_item (st : DBState) (item_id : Nat) (u : UserRec) :
    DBState × Option ClaimError :=
  match st.lostItems.find? (fun it => it.id == item_id) with
  | none => (st, some .doesNotExist)
  | some item =>
      ({ st with
         notifications := st.notifications ++
           [{ to_user := item.user, from_user := u.id,
              message := claimMessage u item, is_read := false }] },
       none)

/-- The message template as the spec words it:
"claimant-username has claimed the item you found: item-description". -/
def specClaimMessage (username description : String) : String :=
  username ++ " has claimed the item you found: " ++ description

/-- The needle occurs inside the haystack as a contiguous substring. -/
def strContains (hay needle : String) : Prop :=
  ∃ pre post : List Char, hay.data = pre ++ needle.data ++ post

/-- The database states the application can reach from an empty store.
Rows enter the item tables with an existing owner and a fresh primary key,
as the registered admin model forms create them (the user-facing item forms
never complete, see lostFormValidate); users register with a fresh primary
key; a user row can be deleted only while no deletion-protected foreign key
references it (on_delete=PROTECT on every item and notification row);
claim_item runs for a logged-in (hence existing) user. Notifications are
created by claim_item alone. -/
inductive Reachable : DBState → Prop where
  | init : Reachable ⟨[], [], [], []⟩
  | register (st : DBState) (u : UserRec) (hr : Reachable st)
      (hfresh : ∀ v ∈ st.users, v.id ≠ u.id) :
      Reachable { st with users := st.users ++ [u] }
  | deleteUser (st : DBState) (uid : Nat) (hr : Reachable st)
      (hlost : ∀ it ∈ st.lostItems, it.user ≠ uid)
      (hfound : ∀ it ∈ st.foundItems, it.user ≠ uid)
      (hnotif : ∀ n ∈ st.notifications, n.to_user ≠ uid ∧ n.from_user ≠ uid) :
      Reachable { st with users := st.users.filter (fun v => v.id != uid) }
  | submitLost (st : DBState) (item : LostItemRec) (hr : Reachable st)
      (howner : ∃ v ∈ st.users, v.id = item.user)
      (hfresh : ∀ it ∈ st.lostItems, it.id ≠ item.id) :
      Reachable { st with lostItems := st.lostItems ++ [item] }
  | submitFound (st : DBState) (item : FoundItemRec) (hr : Reachable st)
      (howner : ∃ v ∈ st.users, v.id = item.user)
      (hfresh : ∀ it ∈ st.foundItems, it.id ≠ item.id) :
      Reachable { st with foundItems := st.foundItems ++ [item] }
  | claim (st : DBState) (item_id : Nat) (u : UserRec) (hr : Reachable st)
      (hu : u ∈ st.users) :
      Reachable (claim_item st item_id u).1

/-! ## Concrete submissions, taken from the repository's own test data -/

/-- The valid_data fixture of BaseItemFormTests in findit/tests.py, every
field individually valid, no image. -/
def blueBackpackSubmission : Submission :=
  { item_name := "Blue Backpack", color := "Blue", item_type := "bags",
    brand := "Nike",
    description := "A blue Nike backpack with laptop compartment and water bottle holder",
    location := "Central Park, near the fountain", contact_name := "John Doe",
    contact_email := "john.doe@example.com", contact_phone := "+1234567890",
    image := none }

/-- The found-item submission of test_complete_found_item_workflow in
findit/tests.py, every field individually valid, no image. -/
def redScarfSubmission : Submission :=
  { item_name := "Red Scarf", color := "Red", item_type := "clothing",
    brand := "",
    description := "Handknit red wool scarf with fringe ends",
    location := "Coffee Shop, Main Street", contact_name := "Diana Prince",
    contact_email := "diana@example.com", contact_phone := "+1777888999",
    image := none }

/-- A submission leaving both contact fields empty (all other fields
valid). -/
def noContactSubmission : Submission :=
  { blueBackpackSubmission with contact_email := "", contact_phone := "" }

/-! ## C1 -/

/-- C1: saving a fully valid found-item submission is claimed to persist a
record carrying the supplied item name, item type, location and contact
fields. In the code this is impossible twice over: FoundItemForm.clean
builds a LostItem query on columns the model does not have, so is_valid
raises FieldError on every complete submission and nothing is ever saved;
and the FoundItem table itself has no item_name, item_type, location,
contact_name, contact_email or contact_phone column to persist those values
into. Shown here on the repository's own test submission. -/
theorem c1_found_submission_never_persists_supplied_fields :
    foundFormValidate redScarfSubmission = Except.error FormCrash.fieldError ∧
    ∀ f ∈ ["item_name", "item_type", "location", "contact_name",
           "contact_email", "contact_phone"], f ∉ foundItemModelFields :=
  ⟨rfl, by decide⟩

/-! ## C4 -/

/-- C4: a lost-item submission whose fields are all individually valid is
claimed to validate with at most a warning. In the code,
LostItemForm.clean reaches the recent-duplicate query
LostItem.objects.filter(item_name__icontains=..., location__icontains=...,
date_reported__gte=...) whenever item_name and location cleaned
successfully, and that filter raises FieldError because the LostItem model
has none of those columns: validation crashes before any warning could be
attached, for any state of the stored data. Shown on the repository's own
valid_data fixture; the model-fields conjunct records why the query cannot
run. -/
theorem c4_lost_submission_validation_crashes :
    lostFormValidate blueBackpackSubmission = Except.error FormCrash.fieldError ∧
    ∀ f ∈ ["item_name", "location", "date_reported"], f ∉ lostItemModelFields :=
  ⟨rfl, by decide⟩

/-! ## C5 -/

/-- C5: phone cleaning is claimed to normalize "+1 234-567-890" to
"+1234567890" and accept it. In the code the RegexValidator runs on the raw
value before clean_contact_phone strips spaces and dashes, so that input is
rejected at the field level and the normalization never runs; the last two
conjuncts record that the normalized form of the input does match the
pattern, so the claimed order would have accepted it. "123" and
"abcdefghij" are rejected as claimed. -/
theorem c5_phone_regex_runs_before_normalization :
    cleanContactPhoneField "+1 234-567-890" = Except.error FieldErr.phoneFormat ∧
    cleanContactPhoneField "123" = Except.error FieldErr.phoneFormat ∧
    cleanContactPhoneField "abcdefghij" = Except.error FieldErr.phoneFormat ∧
    cleanContactPhoneField "+1234567890" = Except.ok "+1234567890" ∧
    removeSpacesDashes "+1 234-567-890" = "+1234567890" ∧
    matchesPhoneRegex (removeSpacesDashes "+1 234-567-890") = true :=
  ⟨rfl, rfl, rfl, rfl, rfl, rfl⟩

/-! ## C7 -/

/-- C7: the image field is optional; a present image is accepted exactly
when its size is at most 5 MB and its content type, when carried, is among
the accepted image types; any image over 5 MB is rejected regardless of
type; 5 MB + 1 byte is rejected even for a non-image type; a 4 MB JPEG is
accepted. -/
theorem c7_image_validation :
    (∀ img : ImageFile,
       (cleanImageField (some img) = Except.ok (some img) ↔
        img.size ≤ 5 * 1024 * 1024 ∧
          ∀ t, img.content_type = some t → t ∈ validContentTypes)) ∧
    (∀ (n : Nat) (t : Option String), 5 * 1024 * 1024 < n →
       cleanImageField (some ⟨n, t⟩) = Except.error FieldErr.imageTooLarge) ∧
    cleanImageField (some ⟨5 * 1024 * 1024 + 1, some "application/pdf"⟩) =
      Except.error FieldErr.imageTooLarge ∧
    cleanImageField (some ⟨4 * 1024 * 1024, some "image/jpeg"⟩) =
      Except.ok (some ⟨4 * 1024 * 1024, some "image/jpeg"⟩) ∧
    cleanImageField none = Except.ok none := by
  refine ⟨?_, ?_, rfl, rfl, rfl⟩
  · intro img
    obtain ⟨sz, ct⟩ := img
    simp only [cleanImageField, clean_image]
    by_cases hs : 5 * 1024 * 1024 < sz
    · simp only [if_pos hs]
      constructor
      · intro h; exact absurd h (by simp)
      · intro ⟨h1, _⟩; omega
    · simp only [if_neg hs]
      cases ct with
      | none =>
          exact ⟨fun _ => ⟨by omega, fun t ht => by cases ht⟩, fun _ => rfl⟩
      | some t =>
          by_cases hm : t ∈ validContentTypes
          · have hc : validContentTypes.contains t = true := by
              simpa [List.contains] using hm
            simp only [hc, if_pos rfl]
            constructor
            · intro _
              exact ⟨by omega, by intro t' ht'; cases ht'; exact hm⟩
            · intro _; simp
          · have hc : validContentTypes.contains t = false := by
              simpa [List.contains] using hm
            simp only [hc]
            constructor
            · intro h; exact absurd h (by simp)
            · intro ⟨_, h2⟩; exact absurd (h2 t rfl) hm
  · intro n t hn
    simp only [cleanImageField, clean_image, if_pos hn]

/-- C7 witness: a 5 MB + 1 byte image with no content type is rejected. -/
theorem c7_image_validation_witness :
    cleanImageField (some ⟨5 * 1024 * 1024 + 1, none⟩) =
      Except.error FieldErr.imageTooLarge :=
  c7_image_validation.2.1 (5 * 1024 * 1024 + 1) none (by decide)

/-! ## C8 -/

set_option maxRecDepth 10000 in
/-- C8: on trimmed input, description cleaning succeeds exactly for lengths
in [10, 1000]; a description of exactly 1000 characters is accepted, one of
1001 characters is rejected with the over-length error, and on a full
submission that error is recorded against the description field. -/
theorem c8_description_bounds :
    (∀ s : String, pyStrip s = s →
       ((cleanDescriptionField s).toOption.isSome = true ↔
        10 ≤ s.length ∧ s.length ≤ 1000)) ∧
    cleanDescriptionField (String.mk (List.replicate 1000 'D')) =
      Except.ok (String.mk (List.replicate 1000 'D')) ∧
    cleanDescriptionField (String.mk (List.replicate 1001 'D')) =
      Except.error FieldErr.descTooLong ∧
    ("description", FieldErr.descTooLong) ∈
      (cleanFields { blueBackpackSubmission with
                     description := String.mk (List.replicate 1001 'D') }).2 := by
  refine ⟨?_, rfl, rfl, by decide⟩
  intro s hs
  by_cases he : s = ""
  · subst he
    constructor
    · intro h; exact absurd h (by decide)
    · intro ⟨h1, _⟩; simp at h1
  · have hbe : (s == "") = false := by simp [he]
    simp only [cleanDescriptionField, charFieldPipeline, hs, hbe,
      Bool.false_eq_true, if_false, Except.bind, clean_description]
    split_ifs with h1 h2 <;> simp [Except.toOption] <;> omega

/-- C8 witness: a trimmed ten-character description passes. -/
theorem c8_description_bounds_witness :
    (cleanDescriptionField "abcdefghij").toOption.isSome = true :=
  (c8_description_bounds.1 "abcdefghij" rfl).mpr (by decide)

/-! ## The claim / notification flow -/

/-- Appending strings concatenates their character lists. -/
theorem strData_append (s t : String) : (s ++ t).data = s.data ++ t.data := rfl

/-- Two registered users. -/
def alice : UserRec := { id := 1, username := "alice" }

/-- A second registered user. -/
def bob : UserRec := { id := 2, username := "bob" }

/-- A lost report filed by bob. -/
def blackPhoneBob : LostItemRec :=
  { id := 5, user := 2, description := "a black phone", color := "black",
    brand := "", distinctive_features := "", last_known_location := "Library" }

/-- A store holding alice, bob and bob's lost report. -/
def stClaim : DBState :=
  { users := [alice, bob], lostItems := [blackPhoneBob], foundItems := [],
    notifications := [] }

/-- A store whose only report is a found item with id 7, owned by alice. -/
def stFoundOnly : DBState :=
  { users := [alice],
    lostItems := [],
    foundItems := [{ id := 7, user := 1, description := "a silver watch",
                     color := "silver", brand := "",
                     distinctive_features := "", last_known_location := "Park" }],
    notifications := [] }

/-! ## C2 -/

/-- C2 counterexample: alice claims bob's report; exactly one notification
is created, but its message is " alice has claimed the item you found : a
black phone" — a leading space and a space before the colon — which differs
from the spec's template instantiation "alice has claimed the item you
found: a black phone". -/
theorem c2_template_counterexample :
    (claim_item stClaim 5 alice).1.notifications =
      [{ to_user := 2, from_user := 1,
         message := claimMessage alice blackPhoneBob, is_read := false }] ∧
    claimMessage alice blackPhoneBob ≠
      specClaimMessage alice.username blackPhoneBob.description :=
  ⟨rfl, by decide⟩

/-- C2 (amended): a claim that resolves creates exactly one notification,
with recipient the report's owning user, sender the claimant, and message
the template " claimant-username has claimed the item you found :
item-description", which contains the claimant's username and the report's
description. -/
theorem c2_claim_notifies_owner :
    ∀ (st : DBState) (item_id : Nat) (u : UserRec) (item : LostItemRec),
      st.lostItems.find? (fun it => it.id == item_id) = some item →
      claim_item st item_id u =
        ({ st with notifications := st.notifications ++
             [{ to_user := item.user, from_user := u.id,
                message := claimMessage u item, is_read := false }] }, none) ∧
      strContains (claimMessage u item) u.username ∧
      strContains (claimMessage u item) item.description := by
  intro st item_id u item h
  refine ⟨by simp [claim_item, h], ?_, ?_⟩
  · refine ⟨" ".data,
      (" has claimed the item you found : " ++ item.description).data, ?_⟩
    simp [claimMessage, strData_append]
  · refine ⟨(" " ++ u.username ++ " has claimed the item you found : ").data,
      [], ?_⟩
    simp [claimMessage, strData_append]

/-- C2 witness: the amended statement at alice's claim on bob's report. -/
theorem c2_claim_notifies_owner_witness :
    claim_item stClaim 5 alice =
      ({ stClaim with notifications := stClaim.notifications ++
           [{ to_user := blackPhoneBob.user, from_user := alice.id,
              message := claimMessage alice blackPhoneBob,
              is_read := false }] }, none) ∧
    strContains (claimMessage alice blackPhoneBob) alice.username ∧
    strContains (claimMessage alice blackPhoneBob) blackPhoneBob.description :=
  c2_claim_notifies_owner stClaim 5 alice blackPhoneBob rfl

/-! ## C3 -/

/-- C3: a claim whose item id does not resolve to a lost report aborts with
the not-found outcome and writes no notification. -/
theorem c3_claim_notfound_creates_nothing :
    ∀ (st : DBState) (item_id : Nat) (u : UserRec),
      st.lostItems.find? (fun it => it.id == item_id) = none →
      claim_item st item_id u = (st, some ClaimError.doesNotExist) ∧
      (claim_item st item_id u).1.notifications = st.notifications := by
  intro st item_id u h
  simp [claim_item, h]

/-- C3 witness: claiming the nonexistent id 99 fails and leaves the store
unchanged. -/
theorem c3_claim_notfound_creates_nothing_witness :
    claim_item stClaim 99 bob = (stClaim, some ClaimError.doesNotExist) ∧
    (claim_item stClaim 99 bob).1.notifications = stClaim.notifications :=
  c3_claim_notfound_creates_nothing stClaim 99 bob rfl

/-! ## C10 -/

/-- C10: claim_item resolves the id against the LostItem table only — the
outcome never consults foundItems, so an id held only by a found report
takes the not-found path — and on success the notified recipient is the
matching lost report's reporting user. -/
theorem c10_claim_resolves_against_lost_reports_only :
    ∀ (st : DBState) (item_id : Nat) (u : UserRec),
      ((∀ it ∈ st.lostItems, it.id ≠ item_id) →
        claim_item st item_id u = (st, some ClaimError.doesNotExist)) ∧
      (∀ item : LostItemRec,
        st.lostItems.find? (fun it => it.id == item_id) = some item →
        (claim_item st item_id u).2 = none ∧
        (claim_item st item_id u).1.notifications = st.notifications ++
          [{ to_user := item.user, from_user := u.id,
             message := claimMessage u item, is_read := false }]) := by
  intro st item_id u
  constructor
  · intro hall
    have hf : st.lostItems.find? (fun it => it.id == item_id) = none := by
      apply List.find?_eq_none.mpr
      intro it hit
      simpa using hall it hit
    simp [claim_item, hf]
  · intro item h
    simp [claim_item, h]

/-- C10 witness: id 7 exists only as a found report, and the claim takes
the not-found path. -/
theorem c10_claim_resolves_against_lost_reports_only_witness :
    claim_item stFoundOnly 7 alice = (stFoundOnly, some ClaimError.doesNotExist) :=
  (c10_claim_resolves_against_lost_reports_only stFoundOnly 7 alice).1 (by decide)

/-! ## C6 -/

/-- A lost report filed by alice herself. -/
def alicePhone : LostItemRec :=
  { id := 1, user := 1, description := "a black phone", color := "black",
    brand := "", distinctive_features := "", last_known_location := "Cafe" }

/-- The store after alice registers and files her report. -/
def stAliceItem : DBState :=
  { users := [alice], lostItems := [alicePhone], foundItems := [],
    notifications := [] }

/-- The store after alice then claims her own report. -/
def stSelfClaim : DBState := (claim_item stAliceItem 1 alice).1

/-- The self-claim store is reachable: register alice, file her report,
let her claim it (nothing in views.claim_item compares the claimant to the
report's owner). -/
theorem reachable_stSelfClaim : Reachable stSelfClaim := by
  have h0 : Reachable ⟨[], [], [], []⟩ := Reachable.init
  have h1 : Reachable { users := [alice], lostItems := [], foundItems := [],
                        notifications := [] } :=
    Reachable.register ⟨[], [], [], []⟩ alice h0 (by simp)
  have h2 : Reachable stAliceItem :=
    Reachable.submitLost { users := [alice], lostItems := [], foundItems := [],
                           notifications := [] }
      alicePhone h1 ⟨alice, List.mem_singleton.mpr rfl, rfl⟩
      (fun it hit => absurd hit (List.not_mem_nil it))
  exact Reachable.claim stAliceItem 1 alice h2 (List.mem_singleton.mpr rfl)

/-- Every reachable store satisfies: each lost report's owner exists, and
each notification's recipient and sender exist (deletion is blocked by the
protected foreign keys, so existence is preserved by every step). -/
theorem db_users_inv :
    ∀ st, Reachable st →
      (∀ it ∈ st.lostItems, ∃ v ∈ st.users, v.id = it.user) ∧
      (∀ n ∈ st.notifications,
        (∃ v ∈ st.users, v.id = n.to_user) ∧
        (∃ v ∈ st.users, v.id = n.from_user)) := by
  intro st h
  induction h with
  | init => exact ⟨by simp, by simp⟩
  | register st u hr hfresh ih =>
      obtain ⟨ihL, ihN⟩ := ih
      constructor
      · intro it hit
        obtain ⟨v, hv, hvid⟩ := ihL it hit
        exact ⟨v, List.mem_append_left _ hv, hvid⟩
      · intro n hn
        obtain ⟨⟨v1, hv1, h1⟩, ⟨v2, hv2, h2⟩⟩ := ihN n hn
        exact ⟨⟨v1, List.mem_append_left _ hv1, h1⟩,
               ⟨v2, List.mem_append_left _ hv2, h2⟩⟩
  | deleteUser st uid hr hlost hfound hnotif ih =>
      obtain ⟨ihL, ihN⟩ := ih
      constructor
      · intro it hit
        obtain ⟨v, hv, hvid⟩ := ihL it hit
        refine ⟨v, List.mem_filter.mpr ⟨hv, ?_⟩, hvid⟩
        have := hlost it hit
        simp [hvid, this]
      · intro n hn
        obtain ⟨⟨v1, hv1, h1⟩, ⟨v2, hv2, h2⟩⟩ := ihN n hn
        have hne := hnotif n hn
        exact ⟨⟨v1, List.mem_filter.mpr ⟨hv1, by simp [h1, hne.1]⟩, h1⟩,
               ⟨v2, List.mem_filter.mpr ⟨hv2, by simp [h2, hne.2]⟩, h2⟩⟩
  | submitLost st item hr howner hfresh ih =>
      obtain ⟨ihL, ihN⟩ := ih
      constructor
      · intro it hit
        rcases List.mem_append.mp hit with hmem | hmem
        · exact ihL it hmem
        · have heq : it = item := by simpa using hmem
          subst heq
          exact howner
      · exact ihN
  | submitFound st item hr howner hfresh ih =>
      exact ih
  | claim st item_id u hr hu ih =>
      obtain ⟨ihL, ihN⟩ := ih
      cases hf : st.lostItems.find? (fun it => it.id == item_id) with
      | none =>
          simp only [claim_item, hf]
          exact ⟨ihL, ihN⟩
      | some item =>
          simp only [claim_item, hf]
          constructor
          · exact ihL
          · intro n hn
            rcases List.mem_append.mp hn with hmem | hmem
            · exact ihN n hmem
            · have heq : n = { to_user := item.user, from_user := u.id,
                               message := claimMessage u item,
                               is_read := false } := by simpa using hmem
              subst heq
              constructor
              · exact ihL item (List.mem_of_find?_eq_some hf)
              · exact ⟨u, hu, rfl⟩

/-- C6 counterexample: the claim that every notification in every reachable
store references two distinct existing users fails — in the reachable
self-claim store, alice's claim on her own report produced a notification
whose recipient and sender are both alice. -/
theorem c6_distinct_users_counterexample :
    ¬ (∀ st, Reachable st → ∀ n ∈ st.notifications,
        n.to_user ≠ n.from_user ∧
        (∃ v ∈ st.users, v.id = n.to_user) ∧
        (∃ v ∈ st.users, v.id = n.from_user)) := by
  intro h
  have hn : ({ to_user := 1, from_user := 1,
               message := claimMessage alice alicePhone,
               is_read := false } : NotificationRec) ∈
      stSelfClaim.notifications := List.mem_singleton.mpr rfl
  exact (h stSelfClaim reachable_stSelfClaim _ hn).1 rfl

/-- C6 (amended): in every reachable store, every notification's recipient
and sender both exist among the users — but they need not be distinct, since
a user may claim their own report. -/
theorem c6_notification_users_exist :
    ∀ st, Reachable st → ∀ n ∈ st.notifications,
      (∃ v ∈ st.users, v.id = n.to_user) ∧
      (∃ v ∈ st.users, v.id = n.from_user) :=
  fun st h => (db_users_inv st h).2

/-- C6 witness: the amended statement at the self-claim notification. -/
theorem c6_notification_users_exist_witness :
    (∃ v ∈ stSelfClaim.users, v.id = 1) ∧
    (∃ v ∈ stSelfClaim.users, v.id = 1) :=
  c6_notification_users_exist stSelfClaim reachable_stSelfClaim
    { to_user := 1, from_user := 1, message := claimMessage alice alicePhone,
      is_read := false }
    (List.mem_singleton.mpr rfl)

/-! ## C9 -/

/-- An element that fails the predicate survives dropWhile. -/
theorem mem_dropWhile_of_mem {α} (p : α → Bool) (x : α) (hpx : p x = false) :
    ∀ l : List α, x ∈ l → x ∈ l.dropWhile p := by
  intro l
  induction l with
  | nil => intro hx; cases hx
  | cons a t ih =>
      intro hx
      rcases List.mem_cons.mp hx with rfl | hxt
      · simp [List.dropWhile_cons, hpx]
      · by_cases ha : p a = true
        · simpa [List.dropWhile_cons, ha] using ih hxt
        · simp only [List.dropWhile_cons, if_neg ha]
          exact List.mem_cons_of_mem a hxt

/-- A non-whitespace character of a string survives stripping. -/
theorem mem_pyStripList_of_mem {c : Char} {l : List Char}
    (hws : isPyWhitespace c = false) (hmem : c ∈ l) : c ∈ pyStripList l := by
  unfold pyStripList
  apply List.mem_reverse.mpr
  apply mem_dropWhile_of_mem _ _ hws
  apply List.mem_reverse.mpr
  exact mem_dropWhile_of_mem _ _ hws _ hmem

/-- A string holding a non-whitespace character does not strip to empty. -/
theorem pyStrip_ne_empty {c : Char} {s : String}
    (hws : isPyWhitespace c = false) (hmem : c ∈ s.data) : pyStrip s ≠ "" := by
  intro h
  have hdata : pyStripList s.data = [] := by
    have := congrArg String.data h
    simpa [pyStrip] using this
  exact absurd (hdata ▸ mem_pyStripList_of_mem hws hmem) (List.not_mem_nil c)

/-- The cleaned contact email is never the empty string: a value accepted
by the email validator contains an at sign, which survives lowercasing and
stripping. -/
theorem email_ok_ne_empty {raw v : String}
    (h : cleanContactEmailField raw = Except.ok v) : v ≠ "" := by
  unfold cleanContactEmailField at h
  cases hp : emailFieldPipeline raw with
  | error e => rw [hp] at h; cases h
  | ok w =>
      rw [hp] at h
      cases h
      simp only [emailFieldPipeline] at hp
      split_ifs at hp with h1 h2
      cases hp
      have hw : (pyStrip raw == "") = false := by
        simpa using h1
      have hat : '@' ∈ (pyStrip raw).data := by
        have hc : (pyStrip raw).data.contains '@' = true := by
          simp only [isValidEmail, Bool.and_eq_true] at h2
          exact h2.1.1
        simpa [List.contains] using hc
      have hat2 : '@' ∈ (lowerStr (pyStrip raw)).data := by
        have hmap : Char.toLower '@' ∈ (pyStrip raw).data.map Char.toLower :=
          List.mem_map_of_mem Char.toLower hat
        simpa [lowerStr, show Char.toLower '@' = '@' from by decide] using hmap
      have hne : pyStrip (lowerStr (pyStrip raw)) ≠ "" :=
        pyStrip_ne_empty (by decide) hat2
      simp only [clean_contact_email, hw, Bool.false_eq_true, if_false]
      exact hne

/-- A digit list required by the phone pattern is nonempty and all digits. -/
theorem phoneDigits_has_digit {cs : List Char} (h : phoneDigits cs = true) :
    ∃ c ∈ cs, c.isDigit = true := by
  simp only [phoneDigits, Bool.and_eq_true, decide_eq_true_eq] at h
  obtain ⟨⟨hall, hlen⟩, _⟩ := h
  cases cs with
  | nil => simp at hlen
  | cons a t =>
      exact ⟨a, List.mem_cons_self a t, by
        have := List.all_eq_true.mp hall a (List.mem_cons_self a t)
        simpa using this⟩

/-- The tail of the phone pattern always holds a digit. -/
theorem phoneAfterPlus_has_digit {cs : List Char}
    (h : phoneAfterPlus cs = true) : ∃ c ∈ cs, c.isDigit = true := by
  simp only [phoneAfterPlus, Bool.or_eq_true] at h
  rcases h with h | h
  · exact phoneDigits_has_digit h
  · cases cs with
    | nil => cases h
    | cons b rest =>
        simp only [Bool.and_eq_true] at h
        obtain ⟨c, hc, hd⟩ := phoneDigits_has_digit h.2
        exact ⟨c, List.mem_cons_of_mem b hc, hd⟩

/-- A value matching the phone pattern holds a digit. -/
theorem matchesPhoneRegex_has_digit {s : String}
    (h : matchesPhoneRegex s = true) : ∃ c ∈ s.data, c.isDigit = true := by
  unfold matchesPhoneRegex at h
  cases hd : s.data with
  | nil => rw [hd] at h; cases h
  | cons a rest =>
      rw [hd] at h
      have h' : (if (a == '+') = true then phoneAfterPlus rest
                 else phoneAfterPlus (a :: rest)) = true := h
      by_cases hplus : (a == '+') = true
      · rw [if_pos hplus] at h'
        obtain ⟨c, hc, hdig⟩ := phoneAfterPlus_has_digit h'
        exact ⟨c, List.mem_cons_of_mem a hc, hdig⟩
      · rw [if_neg hplus] at h'
        obtain ⟨c, hc, hdig⟩ := phoneAfterPlus_has_digit h'
        exact ⟨c, hc, hdig⟩

/-- A digit is neither a space nor a dash, so it survives the phone
normalization filter. -/
theorem digit_survives_filter {c : Char} (h : c.isDigit = true) :
    (!(c == ' ') && !(c == '-')) = true := by
  have h1 : (c == ' ') = false := by
    cases hsp : c == ' ' with
    | true =>
        have : c = ' ' := by simpa using hsp
        subst this
        simp at h
    | false => rfl
  have h2 : (c == '-') = false := by
    cases hsp : c == '-' with
    | true =>
        have : c = '-' := by simpa using hsp
        subst this
        simp at h
    | false => rfl
  simp [h1, h2]

/-- The cleaned contact phone is never the empty string: a value matching
the pattern holds a digit, which survives removing spaces and dashes. -/
theorem phone_ok_ne_empty {raw v : String}
    (h : cleanContactPhoneField raw = Except.ok v) : v ≠ "" := by
  unfold cleanContactPhoneField at h
  cases hp : phoneFieldPipeline raw with
  | error e => rw [hp] at h; cases h
  | ok w =>
      rw [hp] at h
      cases h
      simp only [phoneFieldPipeline] at hp
      split_ifs at hp with h1 h2 h3
      cases hp
      have hw : (pyStrip raw == "") = false := by simpa using h1
      have hm : matchesPhoneRegex (pyStrip raw) = true := by
        simpa using h2
      obtain ⟨c, hc, hdig⟩ := matchesPhoneRegex_has_digit hm
      have hmemf : c ∈ (pyStrip raw).data.filter
          (fun c => !(c == ' ') && !(c == '-')) :=
        List.mem_filter.mpr ⟨hc, digit_survives_filter hdig⟩
      simp only [clean_contact_phone, hw, Bool.false_eq_true, if_false]
      intro hempty
      have hdata : (pyStrip raw).data.filter
          (fun c => !(c == ' ') && !(c == '-')) = [] := by
        have hd2 := congrArg String.data hempty
        simpa [removeSpacesDashes] using hd2
      exact absurd (hdata ▸ hmemf) (List.not_mem_nil c)

/-- A failed email field cleaning is recorded under "contact_email" in the
form's field errors. -/
theorem email_err_mem_fieldErrors {d : Submission} {e : FieldErr}
    (h : cleanContactEmailField d.contact_email = Except.error e) :
    ("contact_email", e) ∈ (cleanFields d).2 := by
  simp only [cleanFields]
  simp [errOf, h]

/-- A failed phone field cleaning is recorded under "contact_phone" in the
form's field errors. -/
theorem phone_err_mem_fieldErrors {d : Submission} {e : FieldErr}
    (h : cleanContactPhoneField d.contact_phone = Except.error e) :
    ("contact_phone", e) ∈ (cleanFields d).2 := by
  simp only [cleanFields]
  simp [errOf, h]

/-- C9 counterexample: the form-level contact-method rule does trigger — a
submission with both contact fields left empty completes validation with
exactly the contact-method error among its non-field errors. -/
theorem c9_contact_rule_triggers_counterexample :
    nonFieldErrorsOf (lostFormValidate noContactSubmission) =
      [NonFieldErr.contactMethodRequired] := rfl

/-- C9 (amended): the cross-field contact rule is reachable — it triggers
whenever both contact fields are missing from cleaned_data — but on every
such input each contact field already carries a field error (the per-field
required checks ran first), so the rule never changes a valid submission
into an invalid one. -/
theorem c9_contact_rule_only_fires_on_failed_fields :
    ∀ (d : Submission) (r : FormResult),
      lostFormValidate d = Except.ok r →
      NonFieldErr.contactMethodRequired ∈ r.nonFieldErrors →
      (∃ e, ("contact_email", e) ∈ r.fieldErrors) ∧
      (∃ e, ("contact_phone", e) ∈ r.fieldErrors) := by
  intro d r hok hmem
  simp only [lostFormValidate] at hok
  cases hcl : lostItemFormClean (cleanFields d).1 with
  | error c => rw [hcl] at hok; cases hok
  | ok nf =>
      rw [hcl] at hok
      cases hok
      unfold lostItemFormClean at hcl
      cases hbc : baseFormClean (cleanFields d).1 with
      | none =>
          rw [hbc] at hcl
          split_ifs at hcl
          cases hcl
          cases hmem
      | some e0 =>
          rw [hbc] at hcl
          cases hcl
          unfold baseFormClean at hbc
          split_ifs at hbc with hcond
          rw [Bool.and_eq_true] at hcond
          obtain ⟨hemail, hphone⟩ := hcond
          constructor
          · have hproj : (cleanFields d).1.contact_email =
                (cleanContactEmailField d.contact_email).toOption := rfl
            rw [hproj] at hemail
            cases hce : cleanContactEmailField d.contact_email with
            | error e => exact ⟨e, email_err_mem_fieldErrors hce⟩
            | ok v =>
                rw [hce] at hemail
                have hv : v = "" := by simpa [optFalsy, Except.toOption] using hemail
                exact absurd hv (email_ok_ne_empty hce)
          · have hproj : (cleanFields d).1.contact_phone =
                (cleanContactPhoneField d.contact_phone).toOption := rfl
            rw [hproj] at hphone
            cases hcp : cleanContactPhoneField d.contact_phone with
            | error e => exact ⟨e, phone_err_mem_fieldErrors hcp⟩
            | ok v =>
                rw [hcp] at hphone
                have hv : v = "" := by simpa [optFalsy, Except.toOption] using hphone
                exact absurd hv (phone_ok_ne_empty hcp)

/-- C9 witness: the amended statement on the submission with both contact
fields empty. -/
theorem c9_contact_rule_only_fires_on_failed_fields_witness :
    (∃ e, ("contact_email", e) ∈ (cleanFields noContactSubmission).2) ∧
    (∃ e, ("contact_phone", e) ∈ (cleanFields noContactSubmission).2) :=
  c9_contact_rule_only_fires_on_failed_fields noContactSubmission
    ⟨(cleanFields noContactSubmission).1, (cleanFields noContactSubmission).2,
     [NonFieldErr.contactMethodRequired]⟩ rfl (List.mem_singleton.mpr rfl)
